import Mathlib

/-!
# Verification of the featurefinder aggregation pipeline

A shallow embedding of `src/aggregator.py` and the `Screening` record from
`src/scrapers/base.py`, followed by theorems checking the specification's
claims about deduplication, the inclusion filter, free-text date parsing,
ranking, grouping and collection-stage error isolation.

Python `datetime` values are modelled at day granularity: every datetime the
pipeline compares is first normalized to midnight, so a calendar date
(year, month, day) plus an absolute day number (days since 1970-01-01)
captures all observable behaviour.  Machine integers are modelled as `Int`
(Python integers are arbitrary precision, so no wrap-around is involved).
-/

/-! ## Python string primitives (ASCII model) -/

/-- Model of Python `str.lower()` (ASCII range; the pipeline's configured
keyword and venue fragments are all ASCII). -/
def pyLower (s : String) : String := String.mk (s.data.map Char.toLower)

/-- Model of Python `str.strip()`: drop leading and trailing whitespace. -/
def pyStrip (s : String) : String :=
  String.mk (((s.data.dropWhile Char.isWhitespace).reverse.dropWhile Char.isWhitespace).reverse)

/-- `chStartsWith n h` means the char list `n` is an initial segment of `h`. -/
def chStartsWith : List Char → List Char → Bool
  | [], _ => true
  | _ :: _, [] => false
  | n :: ns, h :: hs => n == h && chStartsWith ns hs

/-- `chHasSub n h` means the char list `n` occurs contiguously inside `h`. -/
def chHasSub (n : List Char) : List Char → Bool
  | [] => n.isEmpty
  | c :: t => chStartsWith n (c :: t) || chHasSub n t

/-- Model of Python `needle in hay` on strings (contiguous substring test). -/
def pyIn (needle hay : String) : Bool := chHasSub needle.data hay.data

/-! ## Day-granularity calendar (model of Python `datetime`) -/

/-- Model of Python's Gregorian leap-year rule (`calendar.isleap`). -/
def isLeapYear (y : Int) : Bool :=
  (y % 4 == 0 && y % 100 != 0) || y % 400 == 0

/-- Number of days in month `m` of year `y` (months numbered 1..12). -/
def daysInMonth (y : Int) (m : Int) : Int :=
  if m == 2 then (if isLeapYear y then 29 else 28)
  else if m == 4 || m == 6 || m == 9 || m == 11 then 30
  else 31

/-- Days since 1970-01-01 of the civil date `(y, m, d)` (proleptic Gregorian,
the same day arithmetic `datetime` subtraction performs). -/
def daysFromCivil (y m d : Int) : Int :=
  let yAdj : Int := if m ≤ 2 then y - 1 else y
  let era : Int := Int.fdiv yAdj 400
  let yoe : Int := yAdj - era * 400
  let mp : Int := if m > 2 then m - 3 else m + 9
  let doy : Int := Int.fdiv (153 * mp + 2) 5 + d - 1
  let doe : Int := yoe * 365 + Int.fdiv yoe 4 - Int.fdiv yoe 100 + doy
  era * 146097 + doe - 719468

/-- A Python `datetime` at day granularity: all datetimes the aggregator
compares are normalized to midnight, so only the civil date is observable. -/
structure PyDate where
  year : Int
  month : Int
  day : Int
deriving DecidableEq

/-- Absolute day number of a `PyDate` (days since 1970-01-01). -/
def dayNumber (d : PyDate) : Int := daysFromCivil d.year d.month d.day

/-- Weekday of an absolute day number, Python convention: Monday = 0 ..
Sunday = 6 (1970-01-01, day 0, was a Thursday, weekday 3). -/
def pyWeekdayOfDay (n : Int) : Int := (n + 3).fmod 7

/-- Model of Python `datetime.weekday()`. -/
def pyWeekday (d : PyDate) : Int := pyWeekdayOfDay (dayNumber d)

/-! ## The `Screening` record (`src/scrapers/base.py`) -/

/-- Model of the `Screening` data class.  Its `__init__` sets the ten string
fields and `priority`; it never defines a `tickets_on_sale` attribute.  Some
adapters attach `tickets_on_sale` dynamically after construction, which the
sort key probes with `hasattr`; that is modelled by the `Option String` field
`tickets_on_sale`, whose default `none` means "attribute absent"
(`hasattr` returns `False`). -/
structure Screening where
  title : String
  theater : String
  date : String := ""
  time_slot : String := ""
  description : String := ""
  special_note : String := ""
  director : String := ""
  ticket_info : String := ""
  url : String := ""
  priority : Int := 5
  ticket_sale_date : String := ""
  tickets_on_sale : Option String := none
deriving DecidableEq

/-! ## Free-text date parsing (`ScreeningAggregator._parse_ticket_date`) -/

/-- The weekday names scanned, in loop order, by `_parse_ticket_date`. -/
def dayNames : List String :=
  ["monday", "tuesday", "wednesday", "thursday", "friday", "saturday", "sunday"]

/-- The `month_names` lookup of `_parse_ticket_date`: the code looks up only
the first three characters of the matched word, so only the three-letter
prefixes of the dict keys are reachable. -/
def monthNameNum (k : String) : Option Int :=
  if k = "jan" then some 1
  else if k = "feb" then some 2
  else if k = "mar" then some 3
  else if k = "apr" then some 4
  else if k = "may" then some 5
  else if k = "jun" then some 6
  else if k = "jul" then some 7
  else if k = "aug" then some 8
  else if k = "sep" then some 9
  else if k = "oct" then some 10
  else if k = "nov" then some 11
  else if k = "dec" then some 12
  else none

/-- Lowercase ASCII letter test, the `[a-z]` character class. -/
def isLowerAZ (c : Char) : Bool := 'a' ≤ c && c ≤ 'z'

/-- Numeric value of an ASCII digit. -/
def digitVal (c : Char) : Int := Int.ofNat (c.toNat - 48)

/-- Model of `re.match(r'([a-z]+)\s+(\d{1,2})', date_str)`: an anchored match
of one-or-more lowercase letters, one-or-more whitespace characters, then one
or two digits (greedy), returning the letter group and the numeric day. -/
def monthDayMatch (cs : List Char) : Option (List Char × Int) :=
  let letters := cs.takeWhile isLowerAZ
  let rest := cs.dropWhile isLowerAZ
  if letters.isEmpty then none
  else if (rest.takeWhile Char.isWhitespace).isEmpty then none
  else
    match rest.dropWhile Char.isWhitespace with
    | [] => none
    | c1 :: tail =>
      if c1.isDigit then
        match tail with
        | c2 :: _ =>
          if c2.isDigit then some (letters, 10 * digitVal c1 + digitVal c2)
          else some (letters, digitVal c1)
        | [] => some (letters, digitVal c1)
      else none

/-- Model of `ScreeningAggregator._parse_ticket_date`.  The Python method
reads `datetime.now()`; here that clock reading is the explicit `now`
argument.  All return paths of the Python code normalize the result to
midnight, so the result is modelled as the absolute day number; `none` models
Python `None` ("no date").  The `datetime(year, month, day)` constructor call
guarded by `try/except ValueError` is modelled by the calendar-validity test:
an invalid combination yields `none`, exactly as the caught exception does. -/
def parse_ticket_date (now : PyDate) (dateStr : String) : Option Int :=
  if dateStr = "" then none
  else
    let ds := pyLower (pyStrip dateStr)
    match dayNames.findIdx? (fun n => pyIn n ds) with
    | some i =>
      let daysAhead : Int := (i : Int) - pyWeekday now
      let daysAheadAdj : Int := if daysAhead ≤ 0 then daysAhead + 7 else daysAhead
      some (dayNumber now + daysAheadAdj)
    | none =>
      if pyIn "today" ds then some (dayNumber now)
      else if pyIn "tomorrow" ds then some (dayNumber now + 1)
      else if pyIn "this week" ds || pyIn "next week" ds then
        some (dayNumber now + (if pyIn "next week" ds then 7 else 0))
      else
        match monthDayMatch ds.data with
        | some (letters, day) =>
          match monthNameNum (String.mk (letters.take 3)) with
          | some month =>
            let year : Int :=
              if month < now.month || (month == now.month && day < now.day)
              then now.year + 1 else now.year
            if 1 ≤ year && year ≤ 9999 && 1 ≤ day && day ≤ daysInMonth year month
            then some (daysFromCivil year month day)
            else none
          | none => none
        | none => none

/-! ## Inclusion filter (`ScreeningAggregator._is_worth_including`) -/

/-- The `repertory_theaters` fragment list of `_is_worth_including`. -/
def repertory_theaters : List String :=
  ["film at lincoln center", "lincoln center", "film forum",
   "ifc center", "metrograph", "anthology", "paris theater",
   "angelika", "quad", "amc", "moma", "alamo drafthouse"]

/-- The `special_keywords` list of `_is_worth_including`. -/
def special_keywords : List String :=
  ["q&a", "director", "premiere", "festival", "imax",
   "70mm", "35mm", "restoration", "retrospective",
   "exclusive", "limited", "advance", "special"]

/-- Model of `ScreeningAggregator._is_worth_including`, made explicit about
its two separate ambient-clock readings: the Python method calls
`datetime.now()` once inside `_parse_ticket_date` (modelled by `nowParse`)
and once more for the midnight-normalized `today` used in the day-difference
comparison (modelled by `nowFilter`); `nowParse` is read first.  Returns the
`(include, reason)` pair. -/
def isWorthIncluding2 (nowParse nowFilter : PyDate) (s : Screening) : Bool × String :=
  let fail1 : Option String :=
    if s.ticket_sale_date ≠ "" then
      match parse_ticket_date nowParse s.ticket_sale_date with
      | some td =>
        let daysUntilSale := td - dayNumber nowFilter
        if 0 ≤ daysUntilSale && daysUntilSale ≤ 14 then none
        else some ("ticket sale date too far: " ++ s.ticket_sale_date)
      | none => some ("couldn\x27t parse ticket date: " ++ s.ticket_sale_date)
    else some "no ticket sale date"
  match fail1 with
  | none => (true, "Tickets on sale within 14 days (" ++ s.ticket_sale_date ++ ")")
  | some r1 =>
    if s.special_note ≠ "" then (true, "Has special note: " ++ s.special_note)
    else
      match repertory_theaters.find? (fun t => pyIn t (pyLower s.theater)) with
      | some t => (true, "From repertory/art house theater: " ++ t)
      | none =>
        let text := pyLower (s.title ++ " " ++ s.description)
        let kws := special_keywords.filter (fun kw => pyIn kw text)
        if kws.isEmpty then
          (false, String.intercalate "; "
            [r1, "no special notes",
             "not from repertory theater (theater: " ++ s.theater ++ ")",
             "no special keywords in title/description"])
        else (true, "Contains special keywords: " ++ String.intercalate ", " kws)

/-- `_is_worth_including` under a single clock value `now`: the behaviour the
specification describes, in which both `datetime.now()` readings made during
one evaluation see the same (injected) instant. -/
def is_worth_including (now : PyDate) (s : Screening) : Bool × String :=
  isWorthIncluding2 now now s

/-! ## Deduplication and filtering (`filter_and_deduplicate`) -/

/-- The deduplication key: `(title.lower().strip(), theater.lower().strip(),
date.lower().strip())`. -/
def dedupKey (s : Screening) : String × String × String :=
  (pyStrip (pyLower s.title), pyStrip (pyLower s.theater), pyStrip (pyLower s.date))

/-- The deduplication loop of `filter_and_deduplicate`: walk the input in
order, keeping a record only when its key has not been seen before. -/
def dedupAux (seen : List (String × String × String)) :
    List Screening → List Screening
  | [] => []
  | s :: rest =>
    if seen.contains (dedupKey s) then dedupAux seen rest
    else s :: dedupAux (dedupKey s :: seen) rest

/-- The deduplication pass of `filter_and_deduplicate` (before filtering). -/
def dedup (l : List Screening) : List Screening := dedupAux [] l

/-- Model of `ScreeningAggregator.filter_and_deduplicate`: deduplicate, then
keep the records `_is_worth_including` accepts. -/
def filter_and_deduplicate (now : PyDate) (l : List Screening) : List Screening :=
  (dedup l).filter (fun s => (is_worth_including now s).1)

/-! ## Ranking (`ScreeningAggregator.sort_screenings`) -/

/-- The composite sort key tuple type:
(availability bucket, ticket-date urgency, priority, theater, title). -/
abbrev SKey := Int × Int × Int × String × String

/-- Model of the inner `sort_key` closure of `sort_screenings` (with the
ambient `datetime.now()` readings replaced by the single argument `now`). -/
def sortKey (now : PyDate) (s : Screening) : SKey :=
  let availabilityPriority : Int :=
    match s.tickets_on_sale with
    | some v =>
      if v = "on_sale" then 0
      else if v = "not_yet" then 1
      else if v = "sold_out" then 3
      else 2
    | none => 2
  let ticketDate : Option Int :=
    if s.ticket_sale_date ≠ "" then parse_ticket_date now s.ticket_sale_date else none
  let ticketPriority : Int :=
    match ticketDate with
    | some td =>
      if availabilityPriority = 1 then
        let daysUntilSale := td - dayNumber now
        if 0 ≤ daysUntilSale && daysUntilSale ≤ 14 then daysUntilSale else 999
      else 1000
    | none => 1000
  (availabilityPriority, ticketPriority, s.priority, s.theater, s.title)

/-- One level of Python tuple comparison: compare first components strictly,
fall through to the rest only on equality. -/
def lexLE2 {α β : Type} [LinearOrder α] (le2 : β → β → Bool) (a b : α × β) : Bool :=
  if a.1 = b.1 then le2 a.2 b.2 else decide (a.1 < b.1)

/-- Lexicographic non-strict comparison of sort-key tuples — the order Python
`sorted` uses on the key tuples. -/
def keyLE : SKey → SKey → Bool :=
  lexLE2 (lexLE2 (lexLE2 (lexLE2 (fun a b => decide (a ≤ b)))))

/-- Model of `sort_screenings`: Python's stable `sorted` with `sort_key` is a
stable merge sort under the key comparison. -/
def sort_screenings (now : PyDate) (l : List Screening) : List Screening :=
  l.mergeSort (fun a b => keyLE (sortKey now a) (sortKey now b))

/-! ## Grouping (`ScreeningAggregator.group_by_theater`) -/

/-- `min(s.priority for s in bucket)` (buckets are nonempty by construction;
the value on `[]` is immaterial). -/
def minPriority : List Screening → Int
  | [] => 0
  | s :: rest => rest.foldl (fun m x => min m x.priority) s.priority

/-- The distinct theater names of `l` in order of first appearance — the key
order of the Python insertion-ordered `grouped` dict. -/
def groupKeys (l : List Screening) : List String :=
  l.foldl (fun acc s => if acc.contains s.theater then acc else acc ++ [s.theater]) []

/-- Model of `group_by_theater`: build the insertion-ordered buckets of
records sharing an exact (case-sensitive) theater name, then stable-sort the
buckets by minimum priority (Python `sorted` on `dict.items()`). -/
def group_by_theater (l : List Screening) : List (String × List Screening) :=
  let items := (groupKeys l).map (fun t => (t, l.filter (fun s => s.theater = t)))
  items.mergeSort (fun a b => decide (minPriority a.2 ≤ minPriority b.2))

/-! ## Collection stage (`collect_all_screenings`) -/

/-- Model of `ScreeningAggregator._scrape_single_source`: one adapter either
returns a record list or raises; the `try/except` turns an exception into the
triple `(name, [], str(e))`, i.e. zero records plus an error message.  The
adapter outcome is the `Except` argument; the name is immaterial here. -/
def scrape_single_source (r : Except String (List Screening)) :
    List Screening × Option String :=
  match r with
  | Except.ok l => (l, none)
  | Except.error e => (([] : List Screening), some e)

/-- One iteration of the result-collection loop of `collect_all_screenings`:
`if not error: all_screenings.extend(screenings)`. -/
def collectStep (acc : List Screening) (r : Except String (List Screening)) :
    List Screening :=
  match scrape_single_source r with
  | (l, none) => acc ++ l
  | (_, some _) => acc

/-- Model of `collect_all_screenings`: the adapter outcomes, listed in thread
completion order, are folded into one list; a result is appended only when
its error slot is empty. -/
def collect_all_screenings (rs : List (Except String (List Screening))) :
    List Screening :=
  rs.foldl collectStep []

/-! ## Derived notions used in the theorem statements -/

/-- The first inclusion check in isolation: the ticket-sale-date parses and
lies within [0, 14] days of `now` (both clock readings taken at `now`). -/
def ticketCheckPasses (now : PyDate) (s : Screening) : Bool :=
  match parse_ticket_date now s.ticket_sale_date with
  | some td => 0 ≤ td - dayNumber now && td - dayNumber now ≤ 14
  | none => false

/-- The first matching repertory-venue fragment (check 3 in isolation). -/
def venueHit (s : Screening) : Option String :=
  repertory_theaters.find? (fun t => pyIn t (pyLower s.theater))

/-- The matching special keywords (check 4 in isolation). -/
def keywordHits (s : Screening) : List String :=
  special_keywords.filter (fun kw => pyIn kw (pyLower (s.title ++ " " ++ s.description)))

/-- The failure explanation the first check contributes when it does not
match (one of the three `reasons_failed` texts of the ticket-date branch). -/
def failExplanation (now : PyDate) (s : Screening) : String :=
  if s.ticket_sale_date = "" then "no ticket sale date"
  else
    match parse_ticket_date now s.ticket_sale_date with
    | none => "couldn\x27t parse ticket date: " ++ s.ticket_sale_date
    | some _ => "ticket sale date too far: " ++ s.ticket_sale_date

/-- The `days_ahead` adjustment of the weekday branch of
`_parse_ticket_date` (source lines 208-210): days from a weekday `w` to the
next strictly future occurrence of weekday number `i`. -/
def nextDelta (w : Int) (i : Nat) : Int :=
  if (i : Int) - w ≤ 0 then (i : Int) - w + 7 else (i : Int) - w

/-- The bucket ordering asserted by the specification for `group_by_theater`:
ascending minimum rank-weight, ties broken by venue name (string order is,
by definition, lexicographic order on the character list `String.data`). -/
def specGroupOrdered (gs : List (String × List Screening)) : Prop :=
  gs.Pairwise (fun a b =>
    minPriority a.2 < minPriority b.2 ∨
    (minPriority a.2 = minPriority b.2 ∧ a.1.data ≤ b.1.data))

/-! ## Concrete records used in scenarios, witnesses and counterexamples -/

/-- Scenario A, first record. -/
def exNos1 : Screening := { title := "Nosferatu", theater := "Film Forum", date := "Nov 15" }

/-- Scenario A, second record (same key up to lowercase + trim). -/
def exNos2 : Screening := { title := "NOSFERATU", theater := " film forum ", date := "nov 15" }

/-- Scenario B record: sale date "today", no special note. -/
def exToday : Screening :=
  { title := "A Film", theater := "Random Multiplex", ticket_sale_date := "today" }

/-- Scenario C record: nothing special at all. -/
def exPlain : Screening :=
  { title := "Plain Movie", theater := "Random Multiplex", description := "a film" }

/-- A record whose sale date "nov 30" sits exactly at the 14-day boundary of
mid-November 2025, exposing the two ambient-clock readings. -/
def exClock : Screening := { title := "A Film", theater := "Random Multiplex", ticket_sale_date := "nov 30" }

/-- Rank-weight-1 record at venue "Z", seen first in the input. -/
def exZ1 : Screening := { title := "t1", theater := "Z", priority := 1 }

/-- Rank-weight-1 record at venue "A", seen second in the input. -/
def exA1 : Screening := { title := "t2", theater := "A", priority := 1 }

/-- Scenario D: rank-weight-1 record at venue "A". -/
def exVenA : Screening := { title := "t", theater := "A", priority := 1 }

/-- Scenario D: rank-weight-3 record at venue "B". -/
def exVenB : Screening := { title := "t", theater := "B", priority := 3 }

/-- A not_yet record whose tickets go on sale "today". -/
def exNotYet : Screening :=
  { title := "n", theater := "T", tickets_on_sale := some "not_yet",
    ticket_sale_date := "today" }

/-- A reference date: 2025-10-12, a Sunday. -/
def exSun : PyDate := ⟨2025, 10, 12⟩

/-- A reference date: 2025-10-14, a Tuesday. -/
def exTue : PyDate := ⟨2025, 10, 14⟩

/-! ## Deduplication lemmas -/

lemma dedupAux_sublist (seen : List (String × String × String)) (l : List Screening) :
    List.Sublist (dedupAux seen l) l := by
  induction l generalizing seen with
  | nil => simp [dedupAux]
  | cons s rest ih =>
    simp only [dedupAux]
    split
    · exact List.Sublist.cons s (ih seen)
    · exact List.Sublist.cons₂ s (ih _)

lemma dedupAux_keys (seen : List (String × String × String)) (l : List Screening) :
    (∀ s ∈ dedupAux seen l, dedupKey s ∉ seen)
    ∧ (dedupAux seen l).Pairwise (fun a b => dedupKey a ≠ dedupKey b) := by
  induction l generalizing seen with
  | nil => simp [dedupAux]
  | cons s rest ih =>
    simp only [dedupAux]
    split
    · exact ih seen
    · rename_i hni
      have hs : dedupKey s ∉ seen := by
        intro hmem
        exact hni (by simpa [List.contains, List.elem_iff] using hmem)
      refine ⟨?_, ?_⟩
      · intro x hx
        rcases List.mem_cons.mp hx with rfl | hx
        · exact hs
        · have := (ih (dedupKey s :: seen)).1 x hx
          intro hmem
          exact this (List.mem_cons_of_mem _ hmem)
      · refine List.Pairwise.cons ?_ (ih (dedupKey s :: seen)).2
        intro b hb
        have := (ih (dedupKey s :: seen)).1 b hb
        intro heq
        exact this (by rw [← heq]; exact List.mem_cons_self _ _)

lemma dedupAux_find? (seen : List (String × String × String)) (l : List Screening)
    (k : String × String × String) (hk : k ∉ seen) :
    (dedupAux seen l).find? (fun s => dedupKey s == k)
      = l.find? (fun s => dedupKey s == k) := by
  induction l generalizing seen with
  | nil => rfl
  | cons s rest ih =>
    simp only [dedupAux]
    by_cases hc : seen.contains (dedupKey s) = true
    · rw [if_pos hc]
      have hsmem : dedupKey s ∈ seen := by simpa [List.contains, List.elem_iff] using hc
      have hne : ¬ ((fun s => dedupKey s == k) s = true) := by
        simp only [beq_iff_eq]
        intro heq
        exact hk (heq ▸ hsmem)
      rw [List.find?_cons_of_neg rest hne]
      exact ih seen hk
    · rw [if_neg hc]
      by_cases hek : dedupKey s = k
      · rw [List.find?_cons_of_pos (dedupAux (dedupKey s :: seen) rest) (by simpa using hek),
            List.find?_cons_of_pos rest (by simpa using hek)]
      · rw [List.find?_cons_of_neg (dedupAux (dedupKey s :: seen) rest) (by simpa using hek),
            List.find?_cons_of_neg rest (by simpa using hek)]
        refine ih (dedupKey s :: seen) ?_
        intro hmem
        rcases List.mem_cons.mp hmem with heq | hmem
        · exact hek heq.symm
        · exact hk hmem

/-- C3: deduplication keys records by the lowercased-trimmed
(title, venue, date) triple; the output is a subsequence of the input, its
keys are pairwise distinct (so at most one record survives per key), the
survivor for any key `k` is exactly the first input record bearing `k`, and
the two Nosferatu records of Scenario A collapse to exactly the first. -/
theorem C3_dedup_first_seen (l : List Screening) (k : String × String × String) :
    List.Sublist (dedup l) l
    ∧ (dedup l).Pairwise (fun a b => dedupKey a ≠ dedupKey b)
    ∧ (dedup l).find? (fun s => dedupKey s == k) = l.find? (fun s => dedupKey s == k)
    ∧ dedup [exNos1, exNos2] = [exNos1] := by
  refine ⟨dedupAux_sublist [] l, (dedupAux_keys [] l).2, ?_, ?_⟩
  · exact dedupAux_find? [] l k (by simp)
  · decide

/-! ## Collection-stage lemmas -/

lemma collect_append_acc (rs : List (Except String (List Screening)))
    (acc : List Screening) :
    rs.foldl collectStep acc = acc ++ rs.foldl collectStep [] := by
  induction rs generalizing acc with
  | nil => simp
  | cons r rest ih =>
    cases r with
    | ok l =>
      have h1 : collectStep acc (Except.ok l) = acc ++ l := rfl
      have h2 : collectStep [] (Except.ok l) = [] ++ l := rfl
      simp only [List.foldl_cons, h1, h2, List.nil_append]
      rw [ih (acc ++ l), ih l, List.append_assoc]
    | error e =>
      have h1 : collectStep acc (Except.error e) = acc := rfl
      have h2 : collectStep ([] : List Screening) (Except.error e) = [] := rfl
      simp only [List.foldl_cons, h1, h2]
      exact ih acc

lemma collect_cons (r : Except String (List Screening))
    (rest : List (Except String (List Screening))) :
    collect_all_screenings (r :: rest)
      = (match r with
          | Except.ok l => l
          | Except.error _ => []) ++ collect_all_screenings rest := by
  cases r with
  | ok l =>
    show rest.foldl collectStep ([] ++ l) = l ++ collect_all_screenings rest
    rw [List.nil_append, collect_append_acc rest l]
    rfl
  | error e =>
    show rest.foldl collectStep [] = [] ++ collect_all_screenings rest
    rw [List.nil_append]
    rfl

/-- C4: an adapter that raises contributes zero records while the other
adapters' results are unaffected; the collected output is exactly the
concatenation of the successful adapters' lists; and when every adapter
raises, collection returns `[]` and grouping returns the empty grouping. -/
theorem C4_error_isolation (rs : List (Except String (List Screening))) :
    collect_all_screenings rs
      = (rs.filterMap (fun r =>
          match r with
          | Except.ok l => some l
          | Except.error _ => none)).flatten
    ∧ (∀ (rs₁ rs₂ : List (Except String (List Screening))) (e : String),
        collect_all_screenings (rs₁ ++ Except.error e :: rs₂)
          = collect_all_screenings (rs₁ ++ rs₂))
    ∧ ((∀ r ∈ rs, ∃ e, r = Except.error e) →
        collect_all_screenings rs = []
          ∧ group_by_theater (collect_all_screenings rs) = []) := by
  have key : ∀ rs : List (Except String (List Screening)),
      collect_all_screenings rs
        = (rs.filterMap (fun r =>
            match r with
            | Except.ok l => some l
            | Except.error _ => none)).flatten := by
    intro rs
    induction rs with
    | nil => rfl
    | cons r rest ih =>
      rw [collect_cons, List.filterMap_cons]
      cases r with
      | ok l => simp [ih]
      | error e => simp [ih]
  refine ⟨key rs, ?_, ?_⟩
  · intro rs₁ rs₂ e
    rw [key, key, List.filterMap_append, List.filterMap_append, List.filterMap_cons]
  · intro hall
    have hempty : collect_all_screenings rs = [] := by
      rw [key]
      have : rs.filterMap (fun r =>
          match r with
          | Except.ok l => some l
          | Except.error _ => none) = [] := by
        rw [List.filterMap_eq_nil_iff]
        intro r hr
        obtain ⟨e, rfl⟩ := hall r hr
        rfl
      rw [this]; rfl
    refine ⟨hempty, ?_⟩
    rw [hempty]
    simp [group_by_theater, groupKeys]

/-- C6 evidence: `_is_worth_including` is not a pure function of the record
and a single clock value, because it reads `datetime.now()` twice (once
inside `_parse_ticket_date`, once for `today`).  With sale date "nov 30", a
clock that advances from 2025-11-15 to 2025-11-16 between the two readings
includes the record, while both fixed clocks 2025-11-15 and 2025-11-16 give
different answers from each other — the exclusion the spec would compute at
the call instant 2025-11-15 differs from what the code can return there. -/
theorem C6_ambient_clock_dependence :
    isWorthIncluding2 ⟨2025, 11, 15⟩ ⟨2025, 11, 16⟩ exClock
      ≠ isWorthIncluding2 ⟨2025, 11, 15⟩ ⟨2025, 11, 15⟩ exClock
    ∧ (isWorthIncluding2 ⟨2025, 11, 15⟩ ⟨2025, 11, 16⟩ exClock).1 = true
    ∧ (is_worth_including ⟨2025, 11, 15⟩ exClock).1 = false
    ∧ (is_worth_including ⟨2025, 11, 16⟩ exClock).1 = true := by
  refine ⟨by decide, by decide, by decide, by decide⟩

/-- C9 counterexample: a record whose sale date is "today" (no special note)
is included, but the reason string is "Tickets on sale within 14 days
(today)", which does not mention "0 days" anywhere. -/
theorem C9_counterexample :
    exToday.special_note = ""
    ∧ is_worth_including exSun exToday
        = (true, "Tickets on sale within 14 days (today)")
    ∧ pyIn "0 days" (is_worth_including exSun exToday).2 = false := by
  refine ⟨rfl, by decide, by decide⟩

/-- C9 amended: a record whose ticket-sale-date resolves to "today" relative
to the injected now (and with no special note) is included, with reason
"Tickets on sale within 14 days (<raw sale-date string>)" — naming the fixed
14-day window and the raw date string, not the computed 0-day count. -/
theorem C9_amended (now : PyDate) (s : Screening)
    (h : parse_ticket_date now s.ticket_sale_date = some (dayNumber now))
    (_hn : s.special_note = "") :
    is_worth_including now s
      = (true, "Tickets on sale within 14 days (" ++ s.ticket_sale_date ++ ")") := by
  have hne : s.ticket_sale_date ≠ "" := by
    intro h0
    rw [h0] at h
    simp [parse_ticket_date] at h
  unfold is_worth_including isWorthIncluding2
  rw [if_pos hne, h]
  simp

/-- C9 amended, instantiated: the Scenario B record on Sunday 2025-10-12. -/
theorem C9_amended_witness :
    is_worth_including exSun exToday
      = (true, "Tickets on sale within 14 days ("
          ++ exToday.ticket_sale_date ++ ")") :=
  C9_amended exSun exToday (by decide) (by decide)

/-- C10: the `Screening` constructor leaves `tickets_on_sale` absent
(modelled as `none`), a record without the attribute is assigned
availability bucket 2 — the same bucket as an explicit "unknown" — and that
bucket sorts strictly after `not_yet` (bucket 1) and strictly before
`sold_out` (bucket 3); the sort key is computed totally, never failing. -/
theorem C10_missing_attribute_bucket (now : PyDate) (s a b : Screening)
    (hs : s.tickets_on_sale = none)
    (ha : a.tickets_on_sale = some "not_yet")
    (hb : b.tickets_on_sale = some "sold_out") :
    ({ title := "t", theater := "v" } : Screening).tickets_on_sale = none
    ∧ (sortKey now s).1 = 2
    ∧ (sortKey now { s with tickets_on_sale := some "unknown" }).1 = 2
    ∧ (sortKey now a).1 < (sortKey now s).1
    ∧ (sortKey now s).1 < (sortKey now b).1 := by
  refine ⟨rfl, ?_, ?_, ?_, ?_⟩ <;> simp [sortKey, hs, ha, hb]

/-- C10 instantiated at concrete records on 2025-10-12. -/
theorem C10_missing_attribute_bucket_witness :
    (sortKey exSun exPlain).1 = 2
    ∧ (sortKey exSun { title := "x", theater := "T", tickets_on_sale := some "not_yet" }).1
        < (sortKey exSun exPlain).1 :=
  ⟨(C10_missing_attribute_bucket exSun exPlain
      { title := "x", theater := "T", tickets_on_sale := some "not_yet" }
      { title := "x", theater := "T", tickets_on_sale := some "sold_out" }
      rfl rfl rfl).2.1,
   (C10_missing_attribute_bucket exSun exPlain
      { title := "x", theater := "T", tickets_on_sale := some "not_yet" }
      { title := "x", theater := "T", tickets_on_sale := some "sold_out" }
      rfl rfl rfl).2.2.2.1⟩

/-! ## Inclusion-filter lemmas -/

lemma parse_empty (now : PyDate) : parse_ticket_date now "" = none := by
  simp [parse_ticket_date]

lemma ticketCheckPasses_iff (now : PyDate) (s : Screening) :
    ticketCheckPasses now s = true
      ↔ ∃ td, parse_ticket_date now s.ticket_sale_date = some td
          ∧ 0 ≤ td - dayNumber now ∧ td - dayNumber now ≤ 14 := by
  unfold ticketCheckPasses
  cases hp : parse_ticket_date now s.ticket_sale_date <;> simp [hp]

lemma is_worth_including_of_not_pass (now : PyDate) (s : Screening)
    (h : ticketCheckPasses now s = false) :
    is_worth_including now s
      = (if s.special_note ≠ "" then (true, "Has special note: " ++ s.special_note)
         else
           match venueHit s with
           | some t => (true, "From repertory/art house theater: " ++ t)
           | none =>
             if (keywordHits s).isEmpty then
               (false, String.intercalate "; "
                 [failExplanation now s, "no special notes",
                  "not from repertory theater (theater: " ++ s.theater ++ ")",
                  "no special keywords in title/description"])
             else (true, "Contains special keywords: "
                     ++ String.intercalate ", " (keywordHits s))) := by
  unfold ticketCheckPasses at h
  by_cases hts : s.ticket_sale_date = ""
  · simp only [is_worth_including, isWorthIncluding2, failExplanation, venueHit,
      keywordHits, hts]
    simp
  · cases hp : parse_ticket_date now s.ticket_sale_date with
    | none =>
      simp only [is_worth_including, isWorthIncluding2, failExplanation, venueHit,
        keywordHits, hp, hts]
      simp [hts]
    | some td =>
      rw [hp] at h
      simp only at h
      simp only [Bool.and_eq_false_iff, decide_eq_false_iff_not] at h
      have h' : ¬(dayNumber now ≤ td ∧ td ≤ 14 + dayNumber now) := by omega
      simp only [is_worth_including, isWorthIncluding2, failExplanation, venueHit,
        keywordHits, hp, hts]
      simp [hts, h']

/-- C1: `_is_worth_including` evaluates its four checks in fixed priority
order, stopping at the first that matches — (1) sale date parses within
[0, 14] days of now, (2) non-empty special note, (3) repertory-venue fragment
in the lowercased venue, (4) special keyword in lowercased title+synopsis —
returning `(true, that check's reason)`; when all four fail it returns
`(false, r)` with `r` the "; "-joined concatenation of the four failure
explanations. -/
theorem C1_filter_priority (now : PyDate) (s : Screening) :
    (ticketCheckPasses now s = true →
      is_worth_including now s
        = (true, "Tickets on sale within 14 days (" ++ s.ticket_sale_date ++ ")"))
    ∧ (ticketCheckPasses now s = false → s.special_note ≠ "" →
      is_worth_including now s = (true, "Has special note: " ++ s.special_note))
    ∧ (∀ t, ticketCheckPasses now s = false → s.special_note = "" →
      venueHit s = some t →
      is_worth_including now s = (true, "From repertory/art house theater: " ++ t))
    ∧ (ticketCheckPasses now s = false → s.special_note = "" → venueHit s = none →
      keywordHits s ≠ [] →
      is_worth_including now s
        = (true, "Contains special keywords: " ++ String.intercalate ", " (keywordHits s)))
    ∧ (ticketCheckPasses now s = false → s.special_note = "" → venueHit s = none →
      keywordHits s = [] →
      is_worth_including now s
        = (false, String.intercalate "; "
            [failExplanation now s, "no special notes",
             "not from repertory theater (theater: " ++ s.theater ++ ")",
             "no special keywords in title/description"])) := by
  refine ⟨?_, ?_, ?_, ?_, ?_⟩
  · intro h
    obtain ⟨td, hp, h0, h14⟩ := (ticketCheckPasses_iff now s).1 h
    have hne : s.ticket_sale_date ≠ "" := by
      intro h0'
      rw [h0', parse_empty] at hp
      exact Option.noConfusion hp
    unfold is_worth_including isWorthIncluding2
    rw [if_pos hne, hp]
    simp [h0, h14]
  · intro h hnote
    rw [is_worth_including_of_not_pass now s h, if_pos hnote]
  · intro t h hnote hv
    rw [is_worth_including_of_not_pass now s h, if_neg (by simpa using hnote), hv]
  · intro h hnote hv hkw
    rw [is_worth_including_of_not_pass now s h, if_neg (by simpa using hnote), hv]
    simp only [List.isEmpty_iff]
    rw [if_neg hkw]
  · intro h hnote hv hkw
    rw [is_worth_including_of_not_pass now s h, if_neg (by simpa using hnote), hv]
    simp only [List.isEmpty_iff]
    rw [if_pos hkw]

/-- C1 instantiated: Scenario C's plain record fails all four checks and is
excluded with the four concatenated failure explanations. -/
theorem C1_filter_priority_witness :
    is_worth_including exSun exPlain
      = (false, String.intercalate "; "
          [failExplanation exSun exPlain, "no special notes",
           "not from repertory theater (theater: " ++ exPlain.theater ++ ")",
           "no special keywords in title/description"]) :=
  (C1_filter_priority exSun exPlain).2.2.2.2 (by decide) (by decide) (by decide) (by decide)

/-! ## Ranking lemmas -/

lemma lexLE2_trans {α β : Type} [LinearOrder α] (le2 : β → β → Bool)
    (h2 : ∀ x y z, le2 x y = true → le2 y z = true → le2 x z = true) :
    ∀ a b c : α × β, lexLE2 le2 a b = true → lexLE2 le2 b c = true →
      lexLE2 le2 a c = true := by
  intro a b c hab hbc
  unfold lexLE2 at *
  by_cases hx : a.1 = b.1 <;> by_cases hy : b.1 = c.1
  · rw [if_pos hx] at hab
    rw [if_pos hy] at hbc
    rw [if_pos (hx.trans hy)]
    exact h2 _ _ _ hab hbc
  · rw [if_neg hy] at hbc
    have hlt : a.1 < c.1 := hx ▸ of_decide_eq_true hbc
    rw [if_neg (ne_of_lt hlt)]
    exact decide_eq_true hlt
  · rw [if_neg hx] at hab
    have hlt : a.1 < c.1 := hy ▸ of_decide_eq_true hab
    rw [if_neg (ne_of_lt hlt)]
    exact decide_eq_true hlt
  · rw [if_neg hx] at hab
    rw [if_neg hy] at hbc
    have hlt : a.1 < c.1 := lt_trans (of_decide_eq_true hab) (of_decide_eq_true hbc)
    rw [if_neg (ne_of_lt hlt)]
    exact decide_eq_true hlt

lemma lexLE2_total {α β : Type} [LinearOrder α] (le2 : β → β → Bool)
    (h2 : ∀ x y, (le2 x y || le2 y x) = true) :
    ∀ a b : α × β, (lexLE2 le2 a b || lexLE2 le2 b a) = true := by
  intro a b
  unfold lexLE2
  by_cases h : a.1 = b.1
  · rw [if_pos h, if_pos h.symm]
    exact h2 a.2 b.2
  · rw [if_neg h, if_neg (Ne.symm h)]
    rcases lt_or_gt_of_ne h with hlt | hgt
    · simp [hlt]
    · simp [hgt]

lemma decideLE_trans {α : Type} [LinearOrder α] :
    ∀ x y z : α, decide (x ≤ y) = true → decide (y ≤ z) = true →
      decide (x ≤ z) = true := by
  intro x y z h1 h2
  exact decide_eq_true (le_trans (of_decide_eq_true h1) (of_decide_eq_true h2))

lemma decideLE_total {α : Type} [LinearOrder α] :
    ∀ x y : α, (decide (x ≤ y) || decide (y ≤ x)) = true := by
  intro x y
  rcases le_total x y with h | h <;> simp [h]

lemma keyLE_trans : ∀ a b c : SKey, keyLE a b = true → keyLE b c = true →
    keyLE a c = true := by
  unfold keyLE
  exact lexLE2_trans _ (lexLE2_trans _ (lexLE2_trans _ (lexLE2_trans _ decideLE_trans)))

lemma keyLE_total : ∀ a b : SKey, (keyLE a b || keyLE b a) = true := by
  unfold keyLE
  exact lexLE2_total _ (lexLE2_total _ (lexLE2_total _ (lexLE2_total _ decideLE_total)))

lemma sortKey_fst (now : PyDate) (s : Screening) :
    (sortKey now s).1
      = match s.tickets_on_sale with
        | some v =>
          if v = "on_sale" then 0
          else if v = "not_yet" then 1
          else if v = "sold_out" then 3
          else 2
        | none => 2 := rfl

lemma sortKey_snd (now : PyDate) (s : Screening) :
    (sortKey now s).2.1
      = match (if s.ticket_sale_date ≠ "" then
                 parse_ticket_date now s.ticket_sale_date
               else none) with
        | some td =>
          if (sortKey now s).1 = 1 then
            if 0 ≤ td - dayNumber now && td - dayNumber now ≤ 14
            then td - dayNumber now else 999
          else 1000
        | none => 1000 := rfl

/-- C2: `sort_screenings` permutes its input into a sequence ascending under
the composite key — availability bucket (on_sale 0, not_yet 1, unknown 2,
sold_out 3), then days-until-sale within the not_yet bucket only (0 = today,
past-or-beyond-14-days clamped to 999, unparseable dates 1000 = the maximum
sentinel), then rank-weight (`priority`), then venue name and title. -/
theorem C2_sort_composite_key (now : PyDate) (l : List Screening) :
    List.Perm (sort_screenings now l) l
    ∧ List.Pairwise (fun a b => keyLE (sortKey now a) (sortKey now b) = true)
        (sort_screenings now l)
    ∧ (∀ s : Screening, s.tickets_on_sale = some "on_sale" → (sortKey now s).1 = 0)
    ∧ (∀ s : Screening, s.tickets_on_sale = some "not_yet" → (sortKey now s).1 = 1)
    ∧ (∀ s : Screening, s.tickets_on_sale = some "unknown" → (sortKey now s).1 = 2)
    ∧ (∀ s : Screening, s.tickets_on_sale = none → (sortKey now s).1 = 2)
    ∧ (∀ s : Screening, s.tickets_on_sale = some "sold_out" → (sortKey now s).1 = 3)
    ∧ (∀ s : Screening, (sortKey now s).1 ≠ 1 → (sortKey now s).2.1 = 1000)
    ∧ (∀ (s : Screening) (td : Int), s.tickets_on_sale = some "not_yet" →
        parse_ticket_date now s.ticket_sale_date = some td →
        (0 ≤ td - dayNumber now → td - dayNumber now ≤ 14 →
          (sortKey now s).2.1 = td - dayNumber now)
        ∧ (14 < td - dayNumber now → (sortKey now s).2.1 = 999))
    ∧ (∀ s : Screening, parse_ticket_date now s.ticket_sale_date = none →
        (sortKey now s).2.1 = 1000)
    ∧ (∀ s : Screening, (sortKey now s).2.1 ≤ 1000)
    ∧ (∀ s : Screening, (sortKey now s).2.2 = (s.priority, s.theater, s.title)) := by
  refine ⟨?_, ?_, ?_, ?_, ?_, ?_, ?_, ?_, ?_, ?_, ?_, ?_⟩
  · exact List.mergeSort_perm l _
  · have := @List.sorted_mergeSort Screening
      (fun a b => keyLE (sortKey now a) (sortKey now b))
      (fun a b c hab hbc => keyLE_trans _ _ _ hab hbc)
      (fun a b => keyLE_total _ _) l
    simpa [sort_screenings] using this
  · intro s h
    rw [sortKey_fst, h]
    rfl
  · intro s h
    rw [sortKey_fst, h]
    rfl
  · intro s h
    rw [sortKey_fst, h]
    rfl
  · intro s h
    rw [sortKey_fst, h]
  · intro s h
    rw [sortKey_fst, h]
    rfl
  · intro s h
    rw [sortKey_snd]
    cases htd : (if s.ticket_sale_date ≠ "" then
        parse_ticket_date now s.ticket_sale_date else none) with
    | none => rfl
    | some td => simp [h]
  · intro s td hny hp
    have h1 : (sortKey now s).1 = 1 := by rw [sortKey_fst, hny]; rfl
    have hne : s.ticket_sale_date ≠ "" := by
      intro h0
      rw [h0, parse_empty] at hp
      exact Option.noConfusion hp
    have h' : (if s.ticket_sale_date ≠ "" then
        parse_ticket_date now s.ticket_sale_date else none) = some td := by
      rw [if_pos hne]
      exact hp
    constructor
    · intro h0 h14
      have hc : (0 ≤ td - dayNumber now && td - dayNumber now ≤ 14) = true := by
        simp only [Bool.and_eq_true, decide_eq_true_eq]
        exact ⟨h0, h14⟩
      rw [sortKey_snd]
      simp only [h']
      rw [if_pos h1, if_pos hc]
    · intro h14
      have hc : (0 ≤ td - dayNumber now && td - dayNumber now ≤ 14) = false := by
        simp only [Bool.and_eq_false_iff, decide_eq_false_iff_not]
        omega
      rw [sortKey_snd]
      simp only [h']
      rw [if_pos h1, if_neg (by simp only [Bool.and_eq_true, decide_eq_true_eq]; omega)]
  · intro s hp
    rw [sortKey_snd]
    by_cases hts : s.ticket_sale_date = "" <;> simp [hts, hp]
  · intro s
    rw [sortKey_snd]
    cases htd : (if s.ticket_sale_date ≠ "" then
        parse_ticket_date now s.ticket_sale_date else none) with
    | none => norm_num
    | some td =>
      show (if (sortKey now s).1 = 1 then
              if 0 ≤ td - dayNumber now && td - dayNumber now ≤ 14
              then td - dayNumber now else 999
            else 1000) ≤ 1000
      by_cases h1 : (sortKey now s).1 = 1
      · rw [if_pos h1]
        by_cases hr : (0 ≤ td - dayNumber now && td - dayNumber now ≤ 14) = true
        · rw [if_pos hr]
          simp only [Bool.and_eq_true, decide_eq_true_eq] at hr
          omega
        · rw [if_neg hr]
          norm_num
      · rw [if_neg h1]
  · intro s
    rfl

/-- C2 instantiated: a not_yet record whose sale date is "today" has key
components (1, 0, priority, theater, title) on 2025-10-12. -/
theorem C2_sort_composite_key_witness :
    (sortKey exSun exNotYet).2.1 = 0 := by
  have h := ((C2_sort_composite_key exSun []).2.2.2.2.2.2.2.2.1
    exNotYet (dayNumber exSun) rfl (by decide)).1 (by omega) (by omega)
  simpa using h

/-! ## Grouping lemmas -/

lemma groupLE_trans : ∀ a b c : String × List Screening,
    decide (minPriority a.2 ≤ minPriority b.2) = true →
    decide (minPriority b.2 ≤ minPriority c.2) = true →
    decide (minPriority a.2 ≤ minPriority c.2) = true := by
  intro a b c hab hbc
  exact decide_eq_true (le_trans (of_decide_eq_true hab) (of_decide_eq_true hbc))

lemma groupLE_total : ∀ a b : String × List Screening,
    (decide (minPriority a.2 ≤ minPriority b.2)
      || decide (minPriority b.2 ≤ minPriority a.2)) = true := by
  intro a b
  rcases le_total (minPriority a.2) (minPriority b.2) with h | h <;> simp [h]

unseal List.merge List.mergeSort in
/-- C5 counterexample: two venues "Z" then "A", both of minimum rank-weight
1.  `group_by_theater` emits the buckets in first-appearance order
["Z", "A"], and that output violates the bucket ordering the claim asserts
(ascending minimum rank-weight with ties broken by venue name), which would
demand "A" before "Z". -/
theorem C5_grouping_tiebreak_counterexample :
    group_by_theater [exZ1, exA1] = [("Z", [exZ1]), ("A", [exA1])]
    ∧ minPriority [exZ1] = minPriority [exA1]
    ∧ ¬ specGroupOrdered [("Z", [exZ1]), ("A", [exA1])] := by
  refine ⟨rfl, rfl, ?_⟩
  unfold specGroupOrdered
  decide

unseal List.merge List.mergeSort in
/-- C5 amended: `group_by_theater` partitions by exact case-sensitive venue
name (each bucket is the input subsequence at that venue), orders buckets
ascending by minimum rank-weight, and breaks ties between buckets of equal
minimum rank-weight by first-appearance order in the input (Python stable
sort over dict insertion order), not by venue name; Scenario D (venue A of
rank-weight 1 grouped before venue B of rank-weight 3) holds. -/
theorem C5_grouping_amended (l : List Screening) :
    (group_by_theater l).Pairwise
        (fun a b => minPriority a.2 ≤ minPriority b.2)
    ∧ (∀ p ∈ group_by_theater l, p.2 = l.filter (fun s => s.theater = p.1))
    ∧ ((group_by_theater l).map Prod.fst).Perm (groupKeys l)
    ∧ (∀ p q : String × List Screening,
        List.Sublist [p, q]
          ((groupKeys l).map (fun t => (t, l.filter (fun s => s.theater = t)))) →
        minPriority p.2 ≤ minPriority q.2 →
        List.Sublist [p, q] (group_by_theater l))
    ∧ group_by_theater [exVenB, exVenA] = [("A", [exVenA]), ("B", [exVenB])] := by
  refine ⟨?_, ?_, ?_, ?_, rfl⟩
  · have h := @List.sorted_mergeSort (String × List Screening)
      (fun a b => decide (minPriority a.2 ≤ minPriority b.2))
      groupLE_trans groupLE_total
      ((groupKeys l).map (fun t => (t, l.filter (fun s => s.theater = t))))
    exact h.imp (fun hab => of_decide_eq_true hab)
  · intro p hp
    have hmem : p ∈ (groupKeys l).map
        (fun t => (t, l.filter (fun s => s.theater = t))) :=
      (List.mergeSort_perm _ _).mem_iff.mp hp
    obtain ⟨t, _, rfl⟩ := List.mem_map.mp hmem
    rfl
  · unfold group_by_theater
    have h := (List.mergeSort_perm
      ((groupKeys l).map (fun t => (t, l.filter (fun s => s.theater = t))))
      (fun a b => decide (minPriority a.2 ≤ minPriority b.2))).map Prod.fst
    simpa [List.map_map, Function.comp_def] using h
  · intro p q hsub hle
    exact List.pair_sublist_mergeSort groupLE_trans groupLE_total
      (decide_eq_true hle) hsub

/-- C5 amended, instantiated: with venues A (rank-weight 1) then B
(rank-weight 3) in the input, the A bucket is ordered before the B bucket. -/
theorem C5_grouping_amended_witness :
    List.Sublist [("A", [exVenA]), ("B", [exVenB])]
      (group_by_theater [exVenA, exVenB]) :=
  (C5_grouping_amended [exVenA, exVenB]).2.2.2.1
    ("A", [exVenA]) ("B", [exVenB]) (List.Sublist.refl _) (by decide)

/-! ## Date-parsing lemmas -/

lemma pyWeekdayOfDay_emod (n : Int) : pyWeekdayOfDay n = (n + 3) % 7 := by
  unfold pyWeekdayOfDay
  exact Int.fmod_eq_emod _ (by norm_num)

lemma pyWeekday_bounds (d : PyDate) : 0 ≤ pyWeekday d ∧ pyWeekday d < 7 := by
  unfold pyWeekday pyWeekdayOfDay
  exact ⟨Int.fmod_nonneg' _ (by norm_num), Int.fmod_lt_of_pos _ (by norm_num)⟩

/-- C7: for each of the seven weekday names, the parser returns the next
strictly future occurrence of that weekday: the result is `now` plus a delta
in [1, 7], the result falls on weekday `i`, and when `now` already falls on
weekday `i` the delta is exactly 7, never 0.  Scenario F: parsing "Tuesday"
when `now` is Tuesday 2025-10-14 yields 7 days later. -/
theorem C7_weekday_next_future (now : PyDate) (i : Nat) (h : i < 7) :
    parse_ticket_date now (dayNames.getD i "")
        = some (dayNumber now + nextDelta (pyWeekday now) i)
    ∧ 1 ≤ nextDelta (pyWeekday now) i
    ∧ nextDelta (pyWeekday now) i ≤ 7
    ∧ pyWeekdayOfDay (dayNumber now + nextDelta (pyWeekday now) i) = (i : Int)
    ∧ (pyWeekday now = (i : Int) → nextDelta (pyWeekday now) i = 7)
    ∧ parse_ticket_date exTue "Tuesday" = some (dayNumber exTue + 7) := by
  obtain ⟨hw0, hw7⟩ := pyWeekday_bounds now
  refine ⟨?_, ?_, ?_, ?_, ?_, ?_⟩
  · interval_cases i
    · have hg : dayNames.getD 0 "" = "monday" := rfl
      rw [hg]
      have hf : dayNames.findIdx?
          (fun n => pyIn n (pyLower (pyStrip "monday"))) = some 0 := by decide
      simp [parse_ticket_date, hf, nextDelta]
    · have hg : dayNames.getD 1 "" = "tuesday" := rfl
      rw [hg]
      have hf : dayNames.findIdx?
          (fun n => pyIn n (pyLower (pyStrip "tuesday"))) = some 1 := by decide
      simp [parse_ticket_date, hf, nextDelta]
    · have hg : dayNames.getD 2 "" = "wednesday" := rfl
      rw [hg]
      have hf : dayNames.findIdx?
          (fun n => pyIn n (pyLower (pyStrip "wednesday"))) = some 2 := by decide
      simp [parse_ticket_date, hf, nextDelta]
    · have hg : dayNames.getD 3 "" = "thursday" := rfl
      rw [hg]
      have hf : dayNames.findIdx?
          (fun n => pyIn n (pyLower (pyStrip "thursday"))) = some 3 := by decide
      simp [parse_ticket_date, hf, nextDelta]
    · have hg : dayNames.getD 4 "" = "friday" := rfl
      rw [hg]
      have hf : dayNames.findIdx?
          (fun n => pyIn n (pyLower (pyStrip "friday"))) = some 4 := by decide
      simp [parse_ticket_date, hf, nextDelta]
    · have hg : dayNames.getD 5 "" = "saturday" := rfl
      rw [hg]
      have hf : dayNames.findIdx?
          (fun n => pyIn n (pyLower (pyStrip "saturday"))) = some 5 := by decide
      simp [parse_ticket_date, hf, nextDelta]
    · have hg : dayNames.getD 6 "" = "sunday" := rfl
      rw [hg]
      have hf : dayNames.findIdx?
          (fun n => pyIn n (pyLower (pyStrip "sunday"))) = some 6 := by decide
      simp [parse_ticket_date, hf, nextDelta]
  · unfold nextDelta
    split <;> omega
  · unfold nextDelta
    split <;> omega
  · have hm : pyWeekday now = (dayNumber now + 3) % 7 := pyWeekdayOfDay_emod _
    rw [pyWeekdayOfDay_emod]
    unfold nextDelta
    rw [hm]
    split <;> omega
  · intro hEq
    unfold nextDelta
    rw [hEq]
    simp
  · decide

/-- C7 instantiated: parsing the weekday name at index 1 ("tuesday") on
Tuesday 2025-10-14 yields now + 7. -/
theorem C7_weekday_next_future_witness :
    parse_ticket_date exTue (dayNames.getD 1 "")
      = some (dayNumber exTue + nextDelta (pyWeekday exTue) 1) :=
  (C7_weekday_next_future exTue 1 (by norm_num)).1

lemma daysInMonth_feb_le (y : Int) : daysInMonth y 2 ≤ 29 := by
  unfold daysInMonth
  split
  · split <;> norm_num
  · simp_all

/-- C8: the free-text date parser is a total function returning an optional
date: empty input, garbage, and the invalid calendar combination "Feb 30"
all yield the "no date" sentinel `none` (the `ValueError` raised by
`datetime(year, 2, 30)` is caught and converted to `None`); a record whose
sale date does not parse receives ranking urgency 1000, which is the
maximum value the urgency component can take, so "no date" flows through
ranking as the lowest-urgency case rather than an error. -/
theorem C8_unparseable_sentinel (now : PyDate) (s : Screening) :
    parse_ticket_date now "" = none
    ∧ parse_ticket_date now "garbage !!?" = none
    ∧ parse_ticket_date now "Feb 30" = none
    ∧ (parse_ticket_date now s.ticket_sale_date = none → (sortKey now s).2.1 = 1000)
    ∧ (sortKey now s).2.1 ≤ 1000 := by
  refine ⟨parse_empty now, ?_, ?_, ?_, ?_⟩
  · have hf : dayNames.findIdx?
        (fun n => pyIn n (pyLower (pyStrip "garbage !!?"))) = none := by decide
    have ht1 : pyIn "today" (pyLower (pyStrip "garbage !!?")) = false := by decide
    have ht2 : pyIn "tomorrow" (pyLower (pyStrip "garbage !!?")) = false := by decide
    have ht3 : pyIn "this week" (pyLower (pyStrip "garbage !!?")) = false := by decide
    have ht4 : pyIn "next week" (pyLower (pyStrip "garbage !!?")) = false := by decide
    have hm : monthDayMatch (pyLower (pyStrip "garbage !!?")).data = none := by decide
    simp [parse_ticket_date, hf, ht1, ht2, ht3, ht4, hm]
  · have hf : dayNames.findIdx?
        (fun n => pyIn n (pyLower (pyStrip "Feb 30"))) = none := by decide
    have ht1 : pyIn "today" (pyLower (pyStrip "Feb 30")) = false := by decide
    have ht2 : pyIn "tomorrow" (pyLower (pyStrip "Feb 30")) = false := by decide
    have ht3 : pyIn "this week" (pyLower (pyStrip "Feb 30")) = false := by decide
    have ht4 : pyIn "next week" (pyLower (pyStrip "Feb 30")) = false := by decide
    have hm : monthDayMatch (pyLower (pyStrip "Feb 30")).data
        = some (['f', 'e', 'b'], 30) := by decide
    have hmn : monthNameNum (String.mk (List.take 3 ['f', 'e', 'b'])) = some 2 := by decide
    simp only [parse_ticket_date, hf, ht1, ht2, ht3, ht4, hm, hmn]
    have hfeb := daysInMonth_feb_le
      (if 2 < now.month ∨ 2 = now.month ∧ (30 : Int) < now.day
       then now.year + 1 else now.year)
    simp
    omega
  · intro hp
    rw [sortKey_snd]
    by_cases hts : s.ticket_sale_date = "" <;> simp [hts, hp]
  · rw [sortKey_snd]
    cases htd : (if s.ticket_sale_date ≠ "" then
        parse_ticket_date now s.ticket_sale_date else none) with
    | none => norm_num
    | some td =>
      show (if (sortKey now s).1 = 1 then
              if 0 ≤ td - dayNumber now && td - dayNumber now ≤ 14
              then td - dayNumber now else 999
            else 1000) ≤ 1000
      by_cases h1 : (sortKey now s).1 = 1
      · rw [if_pos h1]
        by_cases hr : (0 ≤ td - dayNumber now && td - dayNumber now ≤ 14) = true
        · rw [if_pos hr]
          simp only [Bool.and_eq_true, decide_eq_true_eq] at hr
          omega
        · rw [if_neg hr]
          norm_num
      · rw [if_neg h1]

/-- C8 instantiated: the Scenario C record (empty sale date) has ranking
urgency exactly 1000 on 2025-10-12. -/
theorem C8_unparseable_sentinel_witness :
    (sortKey exSun exPlain).2.1 = 1000 :=
  (C8_unparseable_sentinel exSun exPlain).2.2.2.1 (by decide)

/-- C4 instantiated: a run where the only adapter raises returns the empty
list and the empty grouping. -/
theorem C4_error_isolation_witness :
    collect_all_screenings [Except.error "boom"] = []
    ∧ group_by_theater (collect_all_screenings [Except.error "boom"]) = [] :=
  (C4_error_isolation [Except.error "boom"]).2.2 (by
    intro r hr
    rcases List.mem_singleton.mp hr with rfl
    exact ⟨"boom", rfl⟩)
